import Mathlib

/-!
Verification development for the telemetry hub service (`src/main.py`).

The service keeps a process-wide dictionary `subscriptions : Dict[int, Set[WebSocket]]`
mapping a subscriber identity (`user_id`) to the set of live WebSocket
connections registered under it.  The ingestion endpoint
`create_processed_agent_data` validates a batch, flattens it, inserts it into
the `processed_agent_data` table and, still inside the transaction block,
calls `send_data_to_subscribers` with the identity of the first batch element.

The embedding below translates the registry operations, the broadcast loop,
the flattening/serialization of records, and the ingestion control flow into
executable Lean definitions.  A Python `set` is modelled as a duplicate-free
list fixing one iteration order; a Python `dict` is modelled as an
insertion-ordered association list with unique keys.
-/

namespace IotHub

/-- Model of a Python `float` as it flows through this service: a decimal
mantissa/exponent pair (value `mantissa / 10 ^ exp`).  The service never does
float arithmetic — values parsed from JSON are passed through unchanged and
re-serialized with their shortest decimal representation — so the decimal
model is exact for every behaviour the service exhibits. -/
structure PyFloat where
  mantissa : Int
  exp : Nat
deriving DecidableEq

/-- Model of a Python `datetime.datetime` restricted to whole seconds, which
is all the service's wire formats use. -/
structure PyDatetime where
  year : Nat
  month : Nat
  day : Nat
  hour : Nat
  minute : Nat
  second : Nat
deriving DecidableEq

/-- Gregorian leap-year rule, as used by `datetime`'s calendar validation. -/
def isLeapYear (y : Nat) : Bool :=
  (y % 4 == 0 && y % 100 != 0) || y % 400 == 0

/-- Number of days in a month, as used by `datetime`'s calendar validation. -/
def daysInMonth (y m : Nat) : Nat :=
  if m == 2 then (if isLeapYear y then 29 else 28)
  else if m == 4 || m == 6 || m == 9 || m == 11 then 30
  else 31

/-- Range validation performed by the `datetime` constructor. -/
def validDatetime (t : PyDatetime) : Bool :=
  decide (1 ≤ t.year ∧ t.year ≤ 9999 ∧ 1 ≤ t.month ∧ t.month ≤ 12 ∧
    1 ≤ t.day ∧ t.day ≤ daysInMonth t.year t.month ∧
    t.hour ≤ 23 ∧ t.minute ≤ 59 ∧ t.second ≤ 59)

/-- Value of a decimal digit character, `none` for a non-digit. -/
def digitVal (c : Char) : Option Nat :=
  if c.isDigit then some (c.toNat - 48) else none

/-- Two-digit number from two characters. -/
def num2 (a b : Char) : Option Nat :=
  match digitVal a, digitVal b with
  | some x, some y => some (10 * x + y)
  | _, _ => none

/-- Four-digit number from four characters. -/
def num4 (a b c d : Char) : Option Nat :=
  match num2 a b, num2 c d with
  | some x, some y => some (100 * x + y)
  | _, _ => none

/-- Build a datetime, applying the constructor's range validation. -/
def mkValid (y mo dd hh mi ss : Nat) : Option PyDatetime :=
  let t : PyDatetime := ⟨y, mo, dd, hh, mi, ss⟩
  if validDatetime t then some t else none

/-- Model of `datetime.fromisoformat` restricted to the two basic formats
the concrete inputs of this development use: `YYYY-MM-DD` and
`YYYY-MM-DDTHH:MM:SS` (with `T` or a space as the date/time separator).
The real parser accepts further ISO-8601 forms (minute precision,
fractional seconds, timezone offsets) that this model rejects, so no
theorem below relies on this definition returning `none` except at
concrete inputs — `not-a-date`, `1700000000` — that the real parser
rejects identically. -/
def datetime_fromisoformat (s : String) : Option PyDatetime :=
  match s.data with
  | [a, b, c, d, s1, e, f, s2, g, h] =>
    if s1 = '-' && s2 = '-' then
      match num4 a b c d, num2 e f, num2 g h with
      | some y, some mo, some dd => mkValid y mo dd 0 0 0
      | _, _, _ => none
    else none
  | [a, b, c, d, s1, e, f, s2, g, h, sep, i, j, c1, k, l, c2, m, n] =>
    if s1 = '-' && s2 = '-' && (sep = 'T' || sep = ' ') && c1 = ':' && c2 = ':' then
      match num4 a b c d, num2 e f, num2 g h, num2 i j, num2 k l, num2 m n with
      | some y, some mo, some dd, some hh, some mi, some ss => mkValid y mo dd hh mi ss
      | _, _, _, _, _, _ => none
    else none
  | _ => none

/-- Character for the last decimal digit of a number. -/
def digitChar (n : Nat) : Char := Char.ofNat (48 + n % 10)

/-- Two-digit zero-padded rendering. -/
def pad2 (n : Nat) : String := String.mk [digitChar (n / 10), digitChar n]

/-- Four-digit zero-padded rendering. -/
def pad4 (n : Nat) : String :=
  String.mk [digitChar (n / 1000), digitChar (n / 100), digitChar (n / 10), digitChar n]

/-- Model of `datetime.isoformat` for whole-second datetimes:
`YYYY-MM-DDTHH:MM:SS`. -/
def datetime_isoformat (t : PyDatetime) : String :=
  pad4 t.year ++ "-" ++ pad2 t.month ++ "-" ++ pad2 t.day ++ "T" ++
    pad2 t.hour ++ ":" ++ pad2 t.minute ++ ":" ++ pad2 t.second

/-- Python exceptions the modelled code can raise. -/
inductive PyErr where
  | keyError
  | sendError
deriving DecidableEq

/-- The `subscriptions` dictionary (line 85): identity to connection set.
Connections are opaque handles, modelled as natural numbers. -/
abbrev Registry := List (Int × List Nat)

/-- Python `dict` lookup on the association-list model. -/
def dictLookup : Registry → Int → Option (List Nat)
  | [], _ => none
  | (k', v) :: rest, k => if k' = k then some v else dictLookup rest k

/-- Python `dict` item assignment: replace in place if the key exists,
append otherwise (insertion order preserved). -/
def dictSet : Registry → Int → List Nat → Registry
  | [], k, v => [(k, v)]
  | (k', v') :: rest, k, v =>
    if k' = k then (k, v) :: rest else (k', v') :: dictSet rest k v

/-- Python `set.add` on the list model: no-op when the element is present. -/
def pysetAdd (s : List Nat) (c : Nat) : List Nat :=
  if c ∈ s then s else s ++ [c]

/-- Registration step of `websocket_endpoint` (lines 92-94): create the
entry if the identity is absent, then `add` the connection. -/
def websocket_register (reg : Registry) (uid : Int) (c : Nat) : Registry :=
  let reg1 := match dictLookup reg uid with
    | none => dictSet reg uid []
    | some _ => reg
  dictSet reg1 uid (pysetAdd ((dictLookup reg1 uid).getD []) c)

/-- Disconnect cleanup of `websocket_endpoint` (line 99):
`subscriptions[user_id].remove(websocket)`.  Both a missing dictionary entry
and `set.remove` of an absent element raise `KeyError`. -/
def websocket_disconnect (reg : Registry) (uid : Int) (c : Nat) : Except PyErr Registry :=
  match dictLookup reg uid with
  | none => Except.error PyErr.keyError
  | some s => if c ∈ s then Except.ok (dictSet reg uid (s.erase c)) else Except.error PyErr.keyError

/-- JSON-serializable values appearing in the broadcast payload. -/
inductive JVal where
  | s (v : String)
  | i (v : Int)
  | f (v : PyFloat)
deriving DecidableEq

/-- Values appearing in the flattened row dictionaries handed to the insert
statement: JSON scalars plus the raw `datetime` of the `timestamp` column. -/
inductive FlatVal where
  | s (v : String)
  | i (v : Int)
  | f (v : PyFloat)
  | dt (v : PyDatetime)
deriving DecidableEq

/-- One flattened row, as the dict comprehension of lines 115-127 builds it:
an ordered association list of column name to value. -/
abbrev FlatRecord := List (String × FlatVal)

/-- One record on the wire, after the `timestamp` entry has been replaced by
its `isoformat` string (line 135). -/
abbrev WireRecord := List (String × JVal)

/-- The structured broadcast payload: the list of wire records. -/
abbrev Payload := List WireRecord

/-- The `accelerometer` sub-object of the request schema (lines 49-52). -/
structure AccelerometerData where
  x : PyFloat
  y : PyFloat
  z : PyFloat
deriving DecidableEq

/-- The `gps` sub-object of the request schema (lines 55-57). -/
structure GpsData where
  latitude : PyFloat
  longitude : PyFloat
deriving DecidableEq

/-- The `agent_data` object of the request schema (lines 60-64), after
validation: its timestamp has been parsed into a datetime. -/
structure AgentData where
  user_id : Int
  accelerometer : AccelerometerData
  gps : GpsData
  timestamp : PyDatetime
deriving DecidableEq

/-- One validated ingestion submission (lines 79-81). -/
structure ProcessedAgentData where
  road_state : String
  agent_data : AgentData
deriving DecidableEq

/-- One element of the flattened batch, mirroring the dict literal of
lines 116-125 key for key, in source order. -/
def flattenOne (p : ProcessedAgentData) : FlatRecord :=
  [("road_state", FlatVal.s p.road_state),
   ("user_id", FlatVal.i p.agent_data.user_id),
   ("x", FlatVal.f p.agent_data.accelerometer.x),
   ("y", FlatVal.f p.agent_data.accelerometer.y),
   ("z", FlatVal.f p.agent_data.accelerometer.z),
   ("latitude", FlatVal.f p.agent_data.gps.latitude),
   ("longitude", FlatVal.f p.agent_data.gps.longitude),
   ("timestamp", FlatVal.dt p.agent_data.timestamp)]

/-- The per-record rewrite done by the comprehension on line 135,
`\x7b**d, "timestamp": d['timestamp'].isoformat()\x7d`: the dict is copied
and its `timestamp` entry (the only entry holding a datetime in every row the
handler builds) is replaced in place by its `isoformat` string; all other
entries pass through unchanged. -/
def wireRecordOf (d : FlatRecord) : WireRecord :=
  d.map (fun kv =>
    (kv.1, match kv.2 with
      | FlatVal.s v => JVal.s v
      | FlatVal.i v => JVal.i v
      | FlatVal.f v => JVal.f v
      | FlatVal.dt t => JVal.s (datetime_isoformat t)))

/-- Escape a string for inclusion in a JSON string literal (the two escapes
`json.dumps` needs for the payloads this service produces: quote and
backslash; the payload strings contain no control characters). -/
def jsonEscapeChars : List Char → List Char
  | [] => []
  | c :: rest =>
    if c = '"' then '\\' :: '"' :: jsonEscapeChars rest
    else if c = '\\' then '\\' :: '\\' :: jsonEscapeChars rest
    else c :: jsonEscapeChars rest

/-- String-level wrapper of `jsonEscapeChars`. -/
def jsonEscape (s : String) : String := String.mk (jsonEscapeChars s.data)

/-- Inverse of JSON string escaping: drop each escaping backslash. -/
def jsonUnescapeChars : List Char → List Char
  | [] => []
  | [c] => [c]
  | c :: d :: rest =>
    if c = '\\' then d :: jsonUnescapeChars rest
    else c :: jsonUnescapeChars (d :: rest)

/-- Python `repr` of a decimal float: the shortest decimal form, with a
mandatory fractional part (`1.0`, `50.1`). -/
def pyFloatRepr (v : PyFloat) : String :=
  let sign := if v.mantissa < 0 then "-" else ""
  let ds := (toString v.mantissa.natAbs).data
  if v.exp = 0 then sign ++ String.mk ds ++ ".0"
  else
    let ds := if ds.length ≤ v.exp then List.replicate (v.exp + 1 - ds.length) '0' ++ ds else ds
    let k := ds.length - v.exp
    sign ++ String.mk (ds.take k ++ '.' :: ds.drop k)

/-- Model of `json.dumps` on a scalar value. -/
def pyDumpsJVal : JVal → String
  | JVal.s v => "\"" ++ jsonEscape v ++ "\""
  | JVal.i v => toString v
  | JVal.f v => pyFloatRepr v

/-- Model of `json.dumps` on one record dict (default separators). -/
def pyDumpsRecord (r : WireRecord) : String :=
  "\x7b" ++
    String.intercalate (", ")
      (r.map (fun kv => "\"" ++ jsonEscape kv.1 ++ "\"" ++ ": " ++ pyDumpsJVal kv.2)) ++
  "\x7d"

/-- Model of `json.dumps` on the payload list (default separators): the JSON
array text of the batch. -/
def pyDumpsPayload (p : Payload) : String :=
  "[" ++ String.intercalate (", ") (p.map pyDumpsRecord) ++ "]"

/-- Model of `WebSocket.send_json` applied to a Python `str` argument: the
frame put on the wire is `json.dumps` of that string, i.e. a quoted,
escaped JSON string literal. -/
def send_json_wire (textArg : String) : String :=
  "\"" ++ jsonEscape textArg ++ "\""

/-- The exact frame line 106 puts on the wire for one payload:
`websocket.send_json(json.dumps(data))`. -/
def broadcast_wire (p : Payload) : String :=
  send_json_wire (pyDumpsPayload p)

/-- The send loop of lines 105-106, one iteration per connection in set
order.  `oc c = true` means the send to connection `c` succeeds; a failing
send raises, so the loop stops and nothing is caught: the remaining
connections receive nothing and the exception propagates.  The loop body
never mutates the registry. -/
def sendLoop (conns : List Nat) (p : Payload) (oc : Nat → Bool) :
    List (Nat × Payload) × Option PyErr :=
  match conns with
  | [] => ([], none)
  | c :: cs =>
    if oc c then
      let r := sendLoop cs p oc
      ((c, p) :: r.1, r.2)
    else ([], some PyErr.sendError)

/-- Model of `send_data_to_subscribers` (lines 103-106): membership test on
the dictionary, then the send loop over the identity's connection set.
Returns the successful deliveries in order and the propagated exception,
if any. -/
def send_data_to_subscribers (reg : Registry) (uid : Int) (p : Payload) (oc : Nat → Bool) :
    List (Nat × Payload) × Option PyErr :=
  match dictLookup reg uid with
  | none => ([], none)
  | some conns => sendLoop conns p oc

/-- Observable events of one ingestion request, in program order: the insert
statement executing inside the transaction, the call to
`send_data_to_subscribers`, and the end of the `session.begin()` block —
a commit on normal exit, a rollback when an exception is propagating. -/
inductive Event where
  | insert (rows : List FlatRecord)
  | broadcastCall (uid : Int) (p : Payload)
  | commit
  | rollback
deriving DecidableEq

/-- Model of the `create_processed_agent_data` handler body (lines 112-136)
on a validated batch: empty batch returns immediately; otherwise the batch
is flattened, the insert executes, the broadcast is awaited with the first
element's `user_id` — still inside the transaction block — and the block
then commits, or rolls back when the broadcast raised.  Result: the event
trace, the deliveries, and the propagated exception. -/
def create_processed_agent_data (reg : Registry) (batch : List ProcessedAgentData)
    (oc : Nat → Bool) : List Event × List (Nat × Payload) × Option PyErr :=
  match batch with
  | [] => ([], [], none)
  | first :: rest =>
    let rows := (first :: rest).map flattenOne
    let p := rows.map wireRecordOf
    let uid := first.agent_data.user_id
    let r := send_data_to_subscribers reg uid p oc
    ([Event.insert rows, Event.broadcastCall uid p] ++
      (match r.2 with
       | none => [Event.commit]
       | some _ => [Event.rollback]),
     r.1, r.2)

/-- One raw ingestion submission as it arrives in the request body, before
schema validation.  The numeric fields are carried typed (a submission with
a missing or non-numeric field is rejected by schema validation before the
handler runs and never reaches any definition below); the timestamp is kept
as raw text so that the `check_timestamp` / `fromisoformat` validation is
modelled explicitly. -/
structure RawSubmission where
  road_state : String
  user_id : Int
  x : PyFloat
  y : PyFloat
  z : PyFloat
  latitude : PyFloat
  longitude : PyFloat
  timestamp : String
deriving DecidableEq

/-- Validation of one submission under the ISO-8601 timestamp gate that the
`check_timestamp` validator (lines 66-76) declares: parse the timestamp
with `datetime.fromisoformat`, failure rejecting the submission.  Note
that as written the validator never actually runs — `@classmethod` is
stacked above `@field_validator` on lines 66-67, so pydantic v2 never
registers it and the field falls back to pydantic's lax datetime coercion
(see `parseSubmissionEffective`).  The two validations agree on every
concrete input this definition is applied to below (well-formed
`YYYY-MM-DDTHH:MM:SS` text). -/
def parseSubmission (r : RawSubmission) : Option ProcessedAgentData :=
  (datetime_fromisoformat r.timestamp).map (fun t =>
    ⟨r.road_state, ⟨r.user_id, ⟨r.x, r.y, r.z⟩, ⟨r.latitude, r.longitude⟩, t⟩⟩)

/-- All-or-nothing batch validation, as FastAPI validates the whole
`List[ProcessedAgentData]` body before invoking the handler. -/
def validateBatch : List RawSubmission → Option (List ProcessedAgentData)
  | [] => some []
  | r :: rest =>
    match parseSubmission r with
    | none => none
    | some p =>
      match validateBatch rest with
      | none => none
      | some ps => some (p :: ps)

/-- Outcome of one ingestion request: a 422 validation rejection (the
handler body never runs), or the handler's event trace, deliveries, and
propagated exception. -/
inductive IngestOutcome where
  | invalid
  | ok (events : List Event) (sent : List (Nat × Payload)) (exc : Option PyErr)
deriving DecidableEq

/-- The full ingestion endpoint: request-body validation, then the handler. -/
def ingestEndpoint (reg : Registry) (raw : List RawSubmission) (oc : Nat → Bool) :
    IngestOutcome :=
  match validateBatch raw with
  | none => IngestOutcome.invalid
  | some batch =>
    let r := create_processed_agent_data reg batch oc
    IngestOutcome.ok r.1 r.2.1 r.2.2

/-- Event trace of an ingestion outcome: a rejected request produces no
events at all (the handler body never runs, so the Record Store sees no
insert). -/
def eventsOf : IngestOutcome → List Event
  | IngestOutcome.invalid => []
  | IngestOutcome.ok ev _ _ => ev

/-- Deliveries of an ingestion outcome. -/
def sentOf : IngestOutcome → List (Nat × Payload)
  | IngestOutcome.invalid => []
  | IngestOutcome.ok _ sent _ => sent

/-- A registry mutation another task may perform on the same identity's set
while a broadcast is suspended at an `await`: a registration (`set.add`) or
a disconnect-driven removal. -/
inductive Mut where
  | reg (c : Nat)
  | unreg (c : Nat)
deriving DecidableEq

/-- Effect of a concurrent mutation on the identity's connection set:
`add` is a no-op on a present element; the disconnect path's `remove` only
changes the set when the element is present (when absent it raises in the
other task and leaves the set unchanged). -/
def applyMut (s : List Nat) : Mut → List Nat
  | Mut.reg c => pysetAdd s c
  | Mut.unreg c => if c ∈ s then s.erase c else s

/-- Small-step run of the `for websocket in subscriptions[user_id]` loop of
lines 105-106 with concurrent mutations interleaved at its `await` points.
`siUsed` is the element count recorded when the iterator was created; each
call to the iterator first compares the set's current size against it and
raises `RuntimeError` (CPython: "Set changed size during iteration") on a
mismatch, which ends the loop.  `pending` are the elements the iterator has
yet to yield; after each send, the scheduled mutation (if any) runs during
the `await`.  Result: the connections actually sent to, and whether the
iteration raised. -/
def liveGo (siUsed : Nat) : List Nat → List Nat → List (Option Mut) → List Nat × Bool
  | set, pending, muts =>
    if set.length ≠ siUsed then ([], true)
    else
      match pending with
      | [] => ([], false)
      | c :: rest =>
        match muts with
        | [] =>
          let r := liveGo siUsed set rest []
          (c :: r.1, r.2)
        | none :: ms =>
          let r := liveGo siUsed set rest ms
          (c :: r.1, r.2)
        | some mu :: ms =>
          let r := liveGo siUsed (applyMut set mu) rest ms
          (c :: r.1, r.2)

/-- `send_data_to_subscribers` under concurrent registry mutation: the loop
iterates the live set object directly — the source takes no copy — so each
scheduled mutation acts on the very set being iterated. -/
def send_data_to_subscribers_live (reg : Registry) (uid : Int) (muts : List (Option Mut)) :
    List Nat × Bool :=
  match dictLookup reg uid with
  | none => ([], false)
  | some s => liveGo s.length s s muts

/-- Modelled from the spec: `Broadcast(identity, records)` takes
`SnapshotFor(identity)`, a point-in-time copy of the connection set, and
iterates the copy; concurrent mutations therefore never affect the
iteration, every connection of the snapshot is sent to, and no iteration
error can arise. -/
def broadcastSnapshotSpec (reg : Registry) (uid : Int) (_muts : List (Option Mut)) :
    List Nat × Bool :=
  match dictLookup reg uid with
  | none => ([], false)
  | some s => (s, false)

/-! Helper lemmas about the dictionary and set models. -/

/-- Looking up a key right after assigning it yields the assigned value. -/
theorem dictLookup_dictSet (m : Registry) (k : Int) (v : List Nat) :
    dictLookup (dictSet m k v) k = some v := by
  induction m with
  | nil => simp [dictSet, dictLookup]
  | cons hd tl ih =>
    obtain ⟨k', v'⟩ := hd
    by_cases h : k' = k
    · simp [dictSet, dictLookup, h]
    · simp [dictSet, dictLookup, h, ih]

/-- Assigning the same key twice keeps only the second assignment. -/
theorem dictSet_dictSet (m : Registry) (k : Int) (v w : List Nat) :
    dictSet (dictSet m k v) k w = dictSet m k w := by
  induction m with
  | nil => simp [dictSet]
  | cons hd tl ih =>
    obtain ⟨k', v'⟩ := hd
    by_cases h : k' = k
    · simp [dictSet, h]
    · simp [dictSet, h, ih]

/-- An added element is a member of the resulting set. -/
theorem pysetAdd_mem_self (s : List Nat) (c : Nat) : c ∈ pysetAdd s c := by
  by_cases h : c ∈ s
  · simp [pysetAdd, h]
  · simp [pysetAdd, h]

/-- Adding the same element twice is the same as adding it once. -/
theorem pysetAdd_idem (s : List Nat) (c : Nat) :
    pysetAdd (pysetAdd s c) c = pysetAdd s c := by
  show (if c ∈ pysetAdd s c then pysetAdd s c else pysetAdd s c ++ [c]) = pysetAdd s c
  exact if_pos (pysetAdd_mem_self s c)

/-- C6: `Register(identity, connection)` is idempotent — registering the
same connection under the same identity a second time leaves the registry
exactly as it was after the first registration, for every starting
registry, identity, and connection.  This is the behaviour of lines 92-94:
the entry-creation step is skipped when the entry exists and `set.add` is a
no-op on a present element. -/
theorem C6_theorem (reg : Registry) (uid : Int) (c : Nat) :
    websocket_register (websocket_register reg uid c) uid c = websocket_register reg uid c := by
  cases h : dictLookup reg uid with
  | none =>
    have h1 : websocket_register reg uid c = dictSet reg uid [c] := by
      simp [websocket_register, h, dictLookup_dictSet, dictSet_dictSet, pysetAdd]
    rw [h1]
    have h2 : dictLookup (dictSet reg uid [c]) uid = some [c] := dictLookup_dictSet reg uid [c]
    simp [websocket_register, h2, pysetAdd, dictSet_dictSet]
  | some s =>
    have h1 : websocket_register reg uid c = dictSet reg uid (pysetAdd s c) := by
      simp [websocket_register, h]
    rw [h1]
    have h2 : dictLookup (dictSet reg uid (pysetAdd s c)) uid = some (pysetAdd s c) :=
      dictLookup_dictSet reg uid (pysetAdd s c)
    simp [websocket_register, h2, pysetAdd_idem, dictSet_dictSet]

/-- C7: for an identity with zero registered connections — registry entry
absent, or present but empty — `send_data_to_subscribers` sends to no
connection and completes without error, for every payload and send
behaviour.  Line 104's membership test skips the absent case; an empty set
makes the loop body run zero times. -/
theorem C7_theorem (reg : Registry) (uid : Int) (p : Payload) (oc : Nat → Bool)
    (h : dictLookup reg uid = none ∨ dictLookup reg uid = some []) :
    send_data_to_subscribers reg uid p oc = ([], none) := by
  rcases h with h | h <;> simp [send_data_to_subscribers, h, sendLoop]

/-- Witness for C7 at a concrete empty registry. -/
theorem C7_witness :
    send_data_to_subscribers [] 0 [] (fun _ => true) = ([], none) :=
  C7_theorem [] 0 [] (fun _ => true) (Or.inl rfl)

/-- C8: ingesting an empty batch is accepted and is a complete no-op: the
handler returns at line 113-114 before building the insert statement, so
the event trace is empty (no insert, no broadcast, no commit) and nothing
is delivered, for every registry and send behaviour. -/
theorem C8_theorem (reg : Registry) (oc : Nat → Bool) :
    ingestEndpoint reg [] oc = IngestOutcome.ok [] [] none ∧
    create_processed_agent_data reg [] oc = ([], [], none) :=
  ⟨rfl, rfl⟩

/-- C2 counterexample: the claim — a send failure on one connection is
caught and does not abort delivery to the remaining connections nor
propagate to the ingestion caller — is false.  Lines 105-106 wrap the send
in no try/except: with connections `[1, 2]` registered under identity 7 and
the send to connection 1 failing, connection 2 (whose send would succeed)
receives nothing, and the exception propagates out of the function. -/
theorem C2_counterexample :
    send_data_to_subscribers [(7, [1, 2])] 7 [] (fun c => c != 1) = ([], some PyErr.sendError) ∧
    (2, ([] : Payload)) ∉ (send_data_to_subscribers [(7, [1, 2])] 7 [] (fun c => c != 1)).1 ∧
    (send_data_to_subscribers [(7, [1, 2])] 7 [] (fun c => c != 1)).2 ≠ none := by
  decide

/-- C2 as amended: a send failure on one connection aborts the loop — the
connections before the first failing one receive the message, the failing
connection and every connection after it receive nothing — and the
exception propagates to the ingestion caller; the send path itself never
mutates the registry, so the failed connection is indeed not unregistered
by it. -/
theorem C2_theorem (reg : Registry) (uid : Int) (p : Payload) (oc : Nat → Bool)
    (conns : List Nat) (h : dictLookup reg uid = some conns) :
    send_data_to_subscribers reg uid p oc =
      ((conns.takeWhile oc).map (fun c => (c, p)),
       if conns.all oc then none else some PyErr.sendError) := by
  have hloop : ∀ cs : List Nat, sendLoop cs p oc =
      ((cs.takeWhile oc).map (fun c => (c, p)),
       if cs.all oc then none else some PyErr.sendError) := by
    intro cs
    induction cs with
    | nil => simp [sendLoop]
    | cons c cs ih =>
      by_cases hc : oc c <;>
        simp [sendLoop, hc, List.takeWhile_cons, List.all_cons, ih]
  simp only [send_data_to_subscribers, h, hloop]

/-- Witness for C2 at a concrete registry with a failing first send. -/
theorem C2_witness :
    dictLookup [(7, [1, 2])] 7 = some [1, 2] ∧
    send_data_to_subscribers [(7, [1, 2])] 7 [] (fun c => c != 1) =
      ((([1, 2].takeWhile (fun c => c != 1)).map (fun c => (c, ([] : Payload)))),
       if [1, 2].all (fun c => c != 1) then none else some PyErr.sendError) :=
  ⟨rfl, C2_theorem [(7, [1, 2])] 7 [] (fun c => c != 1) [1, 2] rfl⟩

/-- C3 counterexample: the claim — `Unregister` is a benign no-op when the
connection is absent — is false.  Line 99 uses `set.remove`, which raises
`KeyError` on an absent element: with identity 5 present but connection 9
not in its set, the disconnect cleanup raises instead of returning the
registry unchanged. -/
theorem C3_counterexample :
    websocket_disconnect [(5, [])] 5 9 = Except.error PyErr.keyError ∧
    (websocket_disconnect [(5, [])] 5 9).toOption = none :=
  ⟨rfl, rfl⟩

/-- C3 as amended: the disconnect cleanup removes the connection from the
identity's set when it is present; when the connection is absent from the
set (or the identity has no entry) it raises `KeyError` rather than being a
benign no-op.  After a successful removal the connection is no longer in
the set. -/
theorem C3_theorem (reg : Registry) (uid : Int) (c : Nat) (s : List Nat)
    (h : dictLookup reg uid = some s) (hnd : s.Nodup) :
    websocket_disconnect reg uid c =
      (if c ∈ s then Except.ok (dictSet reg uid (s.erase c))
       else Except.error PyErr.keyError) ∧
    c ∉ s.erase c := by
  refine ⟨by simp [websocket_disconnect, h], fun hc => ?_⟩
  exact (hnd.mem_erase_iff.mp hc).1 rfl

/-- Witness for C3 at a concrete registry with the connection present. -/
theorem C3_witness :
    dictLookup [(5, [9])] 5 = some [9] ∧
    (websocket_disconnect [(5, [9])] 5 9 =
      (if 9 ∈ [9] then Except.ok (dictSet [(5, [9])] 5 ([9].erase 9))
       else Except.error PyErr.keyError) ∧
     9 ∉ [9].erase 9) :=
  ⟨rfl, C3_theorem [(5, [9])] 5 9 [9] rfl (by decide)⟩

/-- Calendar year reached by advancing `days` whole days from January 1 of
year `y`, together with the remaining zero-based day of that year; `fuel`
bounds the year loop. -/
def epochYearAndDay (fuel : Nat) (y : Nat) (days : Nat) : Nat × Nat :=
  match fuel with
  | 0 => (y, days)
  | fuel + 1 =>
    let yd := if isLeapYear y then 366 else 365
    if days < yd then (y, days)
    else epochYearAndDay fuel (y + 1) (days - yd)

/-- Month and one-based day of month for the zero-based day `d` of year
`y`, scanning months from `m`; `fuel` bounds the month loop. -/
def dateFromDayOfYear (y : Nat) : Nat → Nat → Nat → Nat × Nat
  | m, fuel, d =>
    match fuel with
    | 0 => (m, d + 1)
    | fuel + 1 =>
      if d < daysInMonth y m then (m, d + 1)
      else dateFromDayOfYear y (m + 1) fuel (d - daysInMonth y m)

/-- Model of `datetime.fromtimestamp(n, tz=timezone.utc)` for nonnegative
whole-second Unix timestamps: the UTC civil date and time `n` seconds
after 1970-01-01T00:00:00.  The `tzinfo` attribute of the resulting
datetime is dropped from the model; nothing in this service branches on
it. -/
def datetime_fromtimestamp (n : Nat) : PyDatetime :=
  let days := n / 86400
  let rem := n % 86400
  let yd := epochYearAndDay 10000 1970 days
  let md := dateFromDayOfYear yd.1 1 12 yd.2
  ⟨yd.1, md.1, md.2, rem / 3600, rem % 3600 / 60, rem % 60⟩

/-- Numeric value of an all-digit string. -/
def stringToNat (s : String) : Nat :=
  s.data.foldl (fun n c => 10 * n + (c.toNat - 48)) 0

/-- Model of the timestamp validation the program actually performs.
Because `@classmethod` is stacked above `@field_validator` on lines 66-67,
pydantic v2's decorator collection (which looks for bare descriptor-proxy
attributes) never registers `check_timestamp`, and the
`timestamp: datetime` field falls back to pydantic's default lax datetime
coercion.  For string input that coercion accepts ISO-8601 text and also a
string of digits, which it interprets as a Unix timestamp in seconds.  The
ISO branch below reuses the basic-format parser — a subset of the formats
the real coercion accepts — so this definition is only ever evaluated at
concrete inputs on which the model and the library agree; it is never used
to assert rejection of anything. -/
def pydantic_datetime_lax (s : String) : Option PyDatetime :=
  match datetime_fromisoformat s with
  | some t => some t
  | none =>
    if !s.data.isEmpty && s.data.all Char.isDigit then
      some (datetime_fromtimestamp (stringToNat s))
    else none

/-- Validation of one submission as the program actually performs it, with
the lax coercion standing in for the unregistered `check_timestamp`
validator. -/
def parseSubmissionEffective (r : RawSubmission) : Option ProcessedAgentData :=
  (pydantic_datetime_lax r.timestamp).map (fun t =>
    ⟨r.road_state, ⟨r.user_id, ⟨r.x, r.y, r.z⟩, ⟨r.latitude, r.longitude⟩, t⟩⟩)

/-- All-or-nothing batch validation under the effective (lax) timestamp
validation. -/
def validateBatchEffective : List RawSubmission → Option (List ProcessedAgentData)
  | [] => some []
  | r :: rest =>
    match parseSubmissionEffective r with
    | none => none
    | some p =>
      match validateBatchEffective rest with
      | none => none
      | some ps => some (p :: ps)

/-- The ingestion endpoint as the program actually behaves: effective
request-body validation, then the handler. -/
def ingestEndpointEffective (reg : Registry) (raw : List RawSubmission) (oc : Nat → Bool) :
    IngestOutcome :=
  match validateBatchEffective raw with
  | none => IngestOutcome.invalid
  | some batch =>
    let r := create_processed_agent_data reg batch oc
    IngestOutcome.ok r.1 r.2.1 r.2.2

/-- A submission whose timestamp is the digit string `1700000000`: a Unix
timestamp in text form, not parsable as ISO-8601. -/
def rawUnix : RawSubmission :=
  ⟨"Good", 42, ⟨1, 0⟩, ⟨2, 0⟩, ⟨3, 0⟩, ⟨501, 1⟩, ⟨302, 1⟩, "1700000000"⟩

/-- The row the handler builds and inserts for `rawUnix`: the digit-string
timestamp has been coerced to the Unix-time datetime 2023-11-14T22:13:20
(UTC). -/
def flatUnix : FlatRecord :=
  [("road_state", FlatVal.s "Good"), ("user_id", FlatVal.i 42),
   ("x", FlatVal.f ⟨1, 0⟩), ("y", FlatVal.f ⟨2, 0⟩), ("z", FlatVal.f ⟨3, 0⟩),
   ("latitude", FlatVal.f ⟨501, 1⟩), ("longitude", FlatVal.f ⟨302, 1⟩),
   ("timestamp", FlatVal.dt ⟨2023, 11, 14, 22, 13, 20⟩)]

/-- C9, evaluated at the failing input: the claim — every batch with a
timestamp that cannot be parsed as ISO-8601 is rejected before any store —
is what the code itself intends (`check_timestamp`'s `ValueError` text
demands ISO 8601), but the code does not enforce it.  The digit string
`1700000000` is not ISO-8601 (the basic-format parser rejects it, and so
does the real `fromisoformat`), yet the request is accepted: the
unregistered validator never runs, lax coercion reads the string as a Unix
timestamp, and the Record Store receives the insert call for the coerced
row — the ingestion is not rejected. -/
theorem C9_theorem :
    datetime_fromisoformat ("1700000000") = none ∧
    pydantic_datetime_lax ("1700000000") = some ⟨2023, 11, 14, 22, 13, 20⟩ ∧
    ingestEndpointEffective [] [rawUnix] (fun _ => true) ≠ IngestOutcome.invalid ∧
    Event.insert [flatUnix] ∈ eventsOf (ingestEndpointEffective [] [rawUnix] (fun _ => true)) := by
  decide

/-- Tests whether an event is the call to `send_data_to_subscribers`. -/
def isBroadcastCallB : Event → Bool
  | Event.broadcastCall _ _ => true
  | _ => false

/-- Tests whether an event is the transaction commit. -/
def isCommitB : Event → Bool
  | Event.commit => true
  | _ => false

/-- Formalizes the claimed ordering "the broadcast call happens only after
the store transaction commits, never before": every broadcast-call position
in the trace lies strictly after every commit position. -/
def broadcastOnlyAfterCommit (ev : List Event) : Bool :=
  ev.enum.all (fun pe =>
    !(isBroadcastCallB pe.2) ||
      ev.enum.all (fun qe => !(isCommitB qe.2) || decide (qe.1 < pe.1)))

/-- The concrete one-record batch used to exercise the ingestion trace. -/
def pad42 : ProcessedAgentData :=
  ⟨"Good", ⟨42, ⟨⟨1, 0⟩, ⟨2, 0⟩, ⟨3, 0⟩⟩, ⟨⟨501, 1⟩, ⟨302, 1⟩⟩, ⟨2024, 1, 1, 0, 0, 0⟩⟩⟩

/-- C1 counterexample: the claim that the broadcast call happens only after
the transaction commits is false.  Lines 129-136 await the broadcast
inside the `session.begin()` block, which commits only when the block
exits: on a successfully stored one-record batch the trace is
insert, broadcast call, commit — the broadcast strictly precedes the
commit. -/
theorem C1_counterexample :
    Event.commit ∈ (create_processed_agent_data [] [pad42] (fun _ => true)).1 ∧
    broadcastOnlyAfterCommit ((create_processed_agent_data [] [pad42] (fun _ => true)).1) =
      false := by
  decide

/-- C1 as amended: for every nonempty batch the handler calls
`send_data_to_subscribers` exactly once, with the identity taken from the
first element of the batch, and the call happens after the insert statement
executes but before the transaction commits — it is awaited inside the
transaction block, whose exit then commits (or rolls back, when the
broadcast raised). -/
theorem C1_theorem (first : ProcessedAgentData) (rest : List ProcessedAgentData)
    (reg : Registry) (oc : Nat → Bool) :
    ((create_processed_agent_data reg (first :: rest) oc).1.countP
        (fun e => isBroadcastCallB e) = 1) ∧
    (create_processed_agent_data reg (first :: rest) oc).1.get? 0 =
      some (Event.insert ((first :: rest).map flattenOne)) ∧
    (create_processed_agent_data reg (first :: rest) oc).1.get? 1 =
      some (Event.broadcastCall first.agent_data.user_id
        (((first :: rest).map flattenOne).map wireRecordOf)) ∧
    (create_processed_agent_data reg (first :: rest) oc).1.get? 2 =
      some (match (create_processed_agent_data reg (first :: rest) oc).2.2 with
        | none => Event.commit
        | some _ => Event.rollback) ∧
    (create_processed_agent_data reg (first :: rest) oc).1.length = 3 := by
  simp only [create_processed_agent_data]
  cases hr : (send_data_to_subscribers reg first.agent_data.user_id
      (List.map wireRecordOf (List.map flattenOne (first :: rest))) oc).2 <;>
    simp [List.countP_cons, isBroadcastCallB]

/-- Run of the live iteration with no concurrent mutation: every pending
element is yielded and sent to and the iterator never raises. -/
theorem liveGo_all_none (siUsed : Nat) (pending : List Nat) :
    ∀ (set : List Nat) (muts : List (Option Mut)), set.length = siUsed →
      (∀ m ∈ muts, m = none) → liveGo siUsed set pending muts = (pending, false) := by
  induction pending with
  | nil => intro set muts hlen hm; simp [liveGo, hlen]
  | cons c rest ih =>
    intro set muts hlen hm
    cases muts with
    | nil => simp [liveGo, hlen, ih set [] hlen (by intro m hm'; cases hm')]
    | cons m ms =>
      have hm0 : m = none := hm m (List.mem_cons_self m ms)
      subst hm0
      simp [liveGo, hlen, ih set ms hlen (fun m' hm' => hm m' (List.mem_cons_of_mem _ hm'))]

/-- C4 counterexample: the claim that the broadcast iterates over a
point-in-time copy of the connection set is false.  Line 105 iterates
`subscriptions[user_id]` directly — no copy is taken — so with connections
`[1, 2]` registered under identity 42 and a concurrent unregistration of
connection 2 during the first send's `await`, the live iteration delivers
only to connection 1 and then raises `RuntimeError` (CPython: set changed
size during iteration), while the snapshot semantics the spec describes
would deliver to both without error. -/
theorem C4_counterexample :
    send_data_to_subscribers_live [(42, [1, 2])] 42 [some (Mut.unreg 2)] = ([1], true) ∧
    broadcastSnapshotSpec [(42, [1, 2])] 42 [some (Mut.unreg 2)] = ([1, 2], false) ∧
    send_data_to_subscribers_live [(42, [1, 2])] 42 [some (Mut.unreg 2)] ≠
      broadcastSnapshotSpec [(42, [1, 2])] 42 [some (Mut.unreg 2)] := by
  decide

/-- C4 as amended: the broadcast iterates the live connection set directly,
taking no copy; it coincides with the spec's snapshot semantics only when
no concurrent mutation interleaves with the iteration — a size-changing
registration or unregistration during iteration instead invalidates the
iterator and aborts the loop with `RuntimeError`. -/
theorem C4_theorem (reg : Registry) (uid : Int) (muts : List (Option Mut))
    (hm : ∀ m ∈ muts, m = none) :
    send_data_to_subscribers_live reg uid muts = broadcastSnapshotSpec reg uid muts := by
  cases h : dictLookup reg uid with
  | none => simp [send_data_to_subscribers_live, broadcastSnapshotSpec, h]
  | some s =>
    simp [send_data_to_subscribers_live, broadcastSnapshotSpec, h,
      liveGo_all_none s.length s s muts rfl hm]

/-- Witness for C4 with one idle interleaving point. -/
theorem C4_witness :
    send_data_to_subscribers_live [(42, [1, 2])] 42 [none] =
      broadcastSnapshotSpec [(42, [1, 2])] 42 [none] :=
  C4_theorem [(42, [1, 2])] 42 [none] (fun _ hm => List.mem_singleton.mp hm)

/-- The end-to-end test record of the spec, as a raw submission: identity
42, road state `Good`, accelerometer `(1.0, 2.0, 3.0)`, gps
`(50.1, 30.2)`, timestamp `2024-01-01T00:00:00`. -/
def raw42 : RawSubmission :=
  ⟨"Good", 42, ⟨1, 0⟩, ⟨2, 0⟩, ⟨3, 0⟩, ⟨501, 1⟩, ⟨302, 1⟩, "2024-01-01T00:00:00"⟩

/-- The flattened row the handler builds from `raw42`. -/
def flat42 : FlatRecord :=
  [("road_state", FlatVal.s "Good"), ("user_id", FlatVal.i 42),
   ("x", FlatVal.f ⟨1, 0⟩), ("y", FlatVal.f ⟨2, 0⟩), ("z", FlatVal.f ⟨3, 0⟩),
   ("latitude", FlatVal.f ⟨501, 1⟩), ("longitude", FlatVal.f ⟨302, 1⟩),
   ("timestamp", FlatVal.dt ⟨2024, 1, 1, 0, 0, 0⟩)]

/-- The wire record broadcast for `raw42`: the same fields with the
timestamp rendered as ISO-8601 text — and no `id` entry. -/
def wr42 : WireRecord :=
  [("road_state", JVal.s "Good"), ("user_id", JVal.i 42),
   ("x", JVal.f ⟨1, 0⟩), ("y", JVal.f ⟨2, 0⟩), ("z", JVal.f ⟨3, 0⟩),
   ("latitude", JVal.f ⟨501, 1⟩), ("longitude", JVal.f ⟨302, 1⟩),
   ("timestamp", JVal.s "2024-01-01T00:00:00")]

/-- C5 counterexample: the claim that the received message contains the
record "with a stored id" is false.  The broadcast payload on line 135 is
built from `flatten_data`, which never contains an `id` column — the
handler never reads the inserted ids back from the insert result — so with
connection 100 registered under identity 42, the one message delivered
carries no `id` key at all. -/
theorem C5_counterexample :
    sentOf (ingestEndpoint [(42, [100])] [raw42] (fun _ => true)) = [(100, [wr42])] ∧
    "id" ∉ wr42.map Prod.fst := by
  decide

/-- C5 as amended: with connection 100 registered under identity 42,
ingesting the spec's end-to-end record makes that connection receive
exactly one message containing that record with the same field values and
the timestamp rendered as ISO-8601 text — but with no stored id, since the
payload is built from the pre-insert flattened rows. -/
theorem C5_theorem :
    ingestEndpoint [(42, [100])] [raw42] (fun _ => true) =
      IngestOutcome.ok
        [Event.insert [flat42], Event.broadcastCall 42 [wr42], Event.commit]
        [(100, [wr42])] none ∧
    ("road_state", JVal.s ("Good")) ∈ wr42 ∧
    ("user_id", JVal.i 42) ∈ wr42 ∧
    ("x", JVal.f ⟨1, 0⟩) ∈ wr42 ∧
    ("y", JVal.f ⟨2, 0⟩) ∈ wr42 ∧
    ("z", JVal.f ⟨3, 0⟩) ∈ wr42 ∧
    ("latitude", JVal.f ⟨501, 1⟩) ∈ wr42 ∧
    ("longitude", JVal.f ⟨302, 1⟩) ∈ wr42 ∧
    ("timestamp", JVal.s ("2024-01-01T00:00:00")) ∈ wr42 ∧
    (sentOf (ingestEndpoint [(42, [100])] [raw42] (fun _ => true))).length = 1 := by
  decide

/-- Escaping produces the empty character list only from the empty list. -/
theorem jsonEscapeChars_nil_iff (l : List Char) : jsonEscapeChars l = [] ↔ l = [] := by
  cases l with
  | nil => simp [jsonEscapeChars]
  | cons c t =>
    simp only [jsonEscapeChars]
    split_ifs <;> simp

/-- Unescaping inverts escaping. -/
theorem jsonUnescape_jsonEscape (l : List Char) :
    jsonUnescapeChars (jsonEscapeChars l) = l := by
  induction l with
  | nil => rfl
  | cons c t ih =>
    by_cases h1 : c = '"'
    · subst h1
      simp [jsonEscapeChars, jsonUnescapeChars, ih]
    · by_cases h2 : c = '\\'
      · subst h2
        simp [jsonEscapeChars, jsonUnescapeChars, ih]
      · cases ht : jsonEscapeChars t with
        | nil =>
          have htn : t = [] := (jsonEscapeChars_nil_iff t).mp ht
          subst htn
          simp [jsonEscapeChars, jsonUnescapeChars, h1, h2]
        | cons d rest =>
          have hesc : jsonEscapeChars (c :: t) = c :: d :: rest := by
            simp [jsonEscapeChars, h1, h2, ht]
          rw [hesc]
          simp [jsonUnescapeChars, h2, ← ht, ih]

/-- C10: every frame put on the wire by line 106,
`send_json(json.dumps(data))`, is the serialization of a JSON string that
wraps the already-serialized record list: the frame is the quoted, escaped
form of the array text — it begins with a quote, not a bracket, and differs
from the array text itself — and unescaping its interior recovers exactly
the array text.  Subscribers therefore receive a JSON string containing
escaped JSON, not the JSON array. -/
theorem C10_theorem (p : Payload) :
    broadcast_wire p = "\"" ++ jsonEscape (pyDumpsPayload p) ++ "\"" ∧
    jsonUnescapeChars (jsonEscapeChars (pyDumpsPayload p).data) = (pyDumpsPayload p).data ∧
    (broadcast_wire p).data.head? = some '"' ∧
    (pyDumpsPayload p).data.head? = some '[' ∧
    broadcast_wire p ≠ pyDumpsPayload p := by
  have h3 : (broadcast_wire p).data.head? = some '"' := rfl
  have h4 : (pyDumpsPayload p).data.head? = some '[' := rfl
  refine ⟨rfl, jsonUnescape_jsonEscape _, h3, h4, fun h => ?_⟩
  rw [h, h4] at h3
  exact absurd (Option.some.inj h3) (by decide)

end IotHub
